import Mathlib

/-!
Verification development for the price-forecasting engine of
PriceForecastApp (src/Calculate.py): money parsing, inflation-rate
resolution with caching, month-by-month compounding projection, and the
per-product forecasting loop of `main`.

Modelling conventions:
* Python values reaching the engine (strings, ints, floats, None) are the
  inductive `PyVal`; Python floats are modelled as rationals, and the
  real-valued compounding arithmetic of `_project_price_over_months` is
  modelled over `ℝ` (the fractional power `** (1/12)` is `Real.rpow`).
* An exception escaping a piece of code is `Except.error`; code whose
  failures are all caught by its own `try/except` is a total function.
* The regular expression `_price_pattern` is compiled, for this one fixed
  pattern, into a deterministic matcher (`priceSearch`): the pattern has no
  ambiguity requiring backtracking beyond the two optional leading-code
  alternatives, because the character classes of adjacent pieces are
  disjoint.  `\d`, `[A-Za-z]` and `\s` are modelled over ASCII (plus the
  non-breaking space, which `str.strip` removes and the code replaces).
* The external World Bank call is an injectable `fetch` function; the
  module-level `_inflation_cache` and the set of issued calls are threaded
  as explicit state `InflState`.
-/

namespace PriceForecast

/-- A Python value of the kinds the engine receives: `None`, a string, an
int, or a float (modelled as a rational). -/
inductive PyVal where
  | none
  | str (s : String)
  | int (n : ℤ)
  | float (q : ℚ)
deriving DecidableEq

/-- A Python exception escaping the modelled code. -/
inductive PyExc where
  | valueError
  | indexError
  | typeError
deriving DecidableEq

/-! ## Character classes and small string helpers -/

/-- ASCII decimal digit (model of regex `\d` and of the digits `float`/`int`
accept; non-ASCII Unicode digits are outside the model). -/
def isAsciiDigit (c : Char) : Bool := 48 ≤ c.toNat && c.toNat ≤ 57

/-- The regex class `[A-Za-z]`. -/
def isAsciiLetter (c : Char) : Bool :=
  (65 ≤ c.toNat && c.toNat ≤ 90) || (97 ≤ c.toNat && c.toNat ≤ 122)

/-- The regex class `\s` over ASCII: space, tab, newline, vertical tab,
form feed, carriage return. -/
def pyIsSpace (c : Char) : Bool := c.toNat = 32 || (9 ≤ c.toNat && c.toNat ≤ 13)

/-- What `str.strip()` removes: whitespace, including the non-breaking
space U+00A0. -/
def isStripChar (c : Char) : Bool := pyIsSpace c || c.toNat = 160

/-- The symbol class `[\$¥£€₺﷼]` of `_price_pattern`. -/
def isCurrencySymbolChar (c : Char) : Bool :=
  c == '$' || c == '¥' || c == '£' || c == '€' || c == '₺' || c == '﷼'

/-- The numeric-token class `[-+\d,.]` of `_price_pattern`. -/
def isNumTokChar (c : Char) : Bool :=
  isAsciiDigit c || c == '-' || c == '+' || c == ',' || c == '.'

/-- ASCII lower-casing of one character (model of `str.lower`). -/
def asciiLowerChar (c : Char) : Char :=
  if 65 ≤ c.toNat ∧ c.toNat ≤ 90 then Char.ofNat (c.toNat + 32) else c

/-- ASCII upper-casing of one character (model of `str.upper`). -/
def asciiUpperChar (c : Char) : Char :=
  if 97 ≤ c.toNat ∧ c.toNat ≤ 122 then Char.ofNat (c.toNat - 32) else c

/-- `str.lower()` over ASCII. -/
def pyLower (s : String) : String := String.mk (s.toList.map asciiLowerChar)

/-- `str.upper()` over ASCII. -/
def pyUpper (s : String) : String := String.mk (s.toList.map asciiUpperChar)

/-- `str.strip()`: drop leading and trailing whitespace. -/
def pyStrip (s : String) : String :=
  String.mk (((s.toList.dropWhile isStripChar).reverse.dropWhile isStripChar).reverse)

/-! ## Python numeric conversions -/

/-- Value of a digit list most-significant first. -/
def digitsVal (ds : List Char) : ℕ :=
  ds.foldl (fun a c => 10 * a + (c.toNat - 48)) 0

/-- The unsigned part of Python `float(s)`: digits with at most one decimal
point and at least one digit.  The strings this engine converts contain
only sign, digit, comma and dot characters, so the exponent / `inf` /
`nan` / underscore forms of the full `float` grammar are unreachable. -/
def pyFloatBody (cs : List Char) : Option ℚ :=
  match cs.splitOn '.' with
  | [a] =>
      if !a.isEmpty && a.all isAsciiDigit then some (digitsVal a) else Option.none
  | [a, b] =>
      if (!a.isEmpty || !b.isEmpty) && a.all isAsciiDigit && b.all isAsciiDigit then
        some ((digitsVal a : ℚ) + (digitsVal b : ℚ) / 10 ^ b.length)
      else Option.none
  | _ => Option.none

/-- Python `float(s)` on the sign/digit/dot strings the engine produces;
`Option.none` models the `ValueError` the callers catch. -/
def pyFloat (s : String) : Option ℚ :=
  match s.toList with
  | '-' :: rest => (pyFloatBody rest).map (fun q => -q)
  | '+' :: rest => pyFloatBody rest
  | cs => pyFloatBody cs

/-- Truncation toward zero, as Python `int(float)` does. -/
def pyTrunc (q : ℚ) : ℤ := if 0 ≤ q then ⌊q⌋ else ⌈q⌉

/-- Python `int(s)` on a string: optional surrounding whitespace, optional
sign, then decimal digits (digit-group underscores are outside the model). -/
def intLit (s : String) : Option ℤ :=
  let cs := ((s.toList.dropWhile isStripChar).reverse.dropWhile isStripChar).reverse
  match cs with
  | '-' :: ds =>
      if !ds.isEmpty && ds.all isAsciiDigit then some (-(digitsVal ds : ℤ)) else Option.none
  | '+' :: ds =>
      if !ds.isEmpty && ds.all isAsciiDigit then some (digitsVal ds : ℤ) else Option.none
  | ds =>
      if !ds.isEmpty && ds.all isAsciiDigit then some (digitsVal ds : ℤ) else Option.none

/-- Python `int(v)`; `Option.none` models the `ValueError`/`TypeError` the
guarded call sites catch. -/
def pyInt : PyVal → Option ℤ
  | PyVal.none => Option.none
  | PyVal.str s => intLit s
  | PyVal.int n => some n
  | PyVal.float q => some (pyTrunc q)

/-- Fractional decimal digits of a rational in `[0, 1)`, with fuel (used
only by `pyStr` on floats; Python renders the shortest round-tripping
decimal, which this canonical expansion models). -/
def fracDigits : ℚ → ℕ → List Char
  | _, 0 => []
  | q, fuel + 1 =>
      if q = 0 then []
      else
        let q10 := q * 10
        Char.ofNat (48 + (⌊q10⌋).toNat) :: fracDigits (q10 - ⌊q10⌋) fuel

/-- Decimal rendering of a float, model of `str(float)`. -/
def floatRepr (q : ℚ) : String :=
  let sign := if q < 0 then "-" else ""
  let a := |q|
  let fr := fracDigits (a - ⌊a⌋) 64
  sign ++ toString (⌊a⌋).toNat ++ "." ++ (if fr.isEmpty then "0" else String.mk fr)

/-- Python `str(v)` for the values the engine stringifies. -/
def pyStr : PyVal → String
  | PyVal.none => "None"
  | PyVal.str s => s
  | PyVal.int n => toString n
  | PyVal.float q => floatRepr q

/-! ## The currency table -/

/-- The module-level `CURRENCY_SYMBOLS` dict, as an association list in
insertion order. -/
def CURRENCY_SYMBOLS : List (String × String) :=
  [("USD", "$"), ("EUR", "€"), ("GBP", "£"), ("JPY", "¥"),
   ("TRY", "₺"), ("IRR", "﷼"), ("SEK", "kr"), ("", "")]

/-- Python `dict.get(k, default)` over an association list. -/
def dictGet (d : List (String × String)) (k : String) (dflt : String) : String :=
  match d.find? (fun p => p.1 == k) with
  | some p => p.2
  | Option.none => dflt

/-! ## The price pattern `([A-Za-z]{3})?\s*([\$¥£€₺﷼]?)([-+\d,.]+)\s*([A-Za-z]{3})?` -/

/-- The four groups of a `_price_pattern` match. -/
structure PriceMatch where
  code1 : Option String
  symGroup : String
  numTok : String
  code2 : Option String
deriving DecidableEq

/-- Match `\s*([\$¥£€₺﷼]?)([-+\d,.]+)\s*([A-Za-z]{3})?` at the head of
`cs`.  Greedy quantifiers need no backtracking here: a whitespace or
symbol character is never a numeric-token character, so shrinking `\s*`
or dropping a matched symbol can never rescue a failed numeric token. -/
def matchTail (cs : List Char) : Option (String × String × Option String) :=
  let cs1 := cs.dropWhile pyIsSpace
  let symAndRest : String × List Char :=
    match cs1 with
    | c :: r => if isCurrencySymbolChar c then (String.mk [c], r) else ("", cs1)
    | [] => ("", [])
  let numT := symAndRest.2.takeWhile isNumTokChar
  if numT.isEmpty then Option.none
  else
    let cs3 := (symAndRest.2.drop numT.length).dropWhile pyIsSpace
    let code2 : Option String :=
      match cs3 with
      | a :: b :: c :: _ =>
          if isAsciiLetter a && isAsciiLetter b && isAsciiLetter c then
            some (String.mk [a, b, c])
          else Option.none
      | _ => Option.none
    some (symAndRest.1, String.mk numT, code2)

/-- Match the whole pattern at the head of `cs`: the greedy optional group
`([A-Za-z]{3})?` is tried with the three letters first, then without. -/
def matchHere (cs : List Char) : Option PriceMatch :=
  let noCode : Option PriceMatch :=
    (matchTail cs).map (fun r => ⟨Option.none, r.1, r.2.1, r.2.2⟩)
  match cs with
  | a :: b :: c :: rest =>
      if isAsciiLetter a && isAsciiLetter b && isAsciiLetter c then
        match matchTail rest with
        | some r => some ⟨some (String.mk [a, b, c]), r.1, r.2.1, r.2.2⟩
        | Option.none => noCode
      else noCode
  | _ => noCode

/-- `re.search`: the leftmost position where the pattern matches. -/
def priceSearch : List Char → Option PriceMatch
  | [] => Option.none
  | c :: rest =>
      match matchHere (c :: rest) with
      | some m => some m
      | Option.none => priceSearch rest

/-! ## `_parse_price` -/

/-- `str(price_str).strip()` followed by replacing non-breaking spaces
with regular spaces (lines 128–129). -/
def normalizePrice (s : String) : List Char :=
  (pyStrip s).toList.map (fun c => if c.toNat = 160 then ' ' else c)

/-- Remove thousands-separator commas from the numeric token (line 142). -/
def stripCommas (s : String) : String :=
  String.mk (s.toList.filter (fun c => c != ','))

/-- Remove spaces (the second conversion attempt, line 148). -/
def stripSpaces (s : String) : String :=
  String.mk (s.toList.filter (fun c => c != ' '))

/-- The fallback cleaning `re.sub(r"[^0-9.-]", "", s)` (line 134). -/
def fallbackClean (cs : List Char) : String :=
  String.mk (cs.filter (fun c => isAsciiDigit c || c == '.' || c == '-'))

/-- The body of `_parse_price` on the normalized character list. -/
def parsePriceCore (s : List Char) (defaultCurrency : String) :
    Option (ℚ × String × String) :=
  match priceSearch s with
  | Option.none =>
      match pyFloat (fallbackClean s) with
      | some x => some (x, dictGet CURRENCY_SYMBOLS defaultCurrency "", defaultCurrency)
      | Option.none => Option.none
  | some m =>
      let currencyCode := m.code1.getD (m.code2.getD defaultCurrency)
      let num := stripCommas m.numTok
      let number? :=
        match pyFloat num with
        | some x => some x
        | Option.none => pyFloat (stripSpaces num)
      match number? with
      | Option.none => Option.none
      | some number =>
          let symbol :=
            dictGet CURRENCY_SYMBOLS (pyUpper currencyCode)
              (if m.symGroup ≠ "" then m.symGroup
               else dictGet CURRENCY_SYMBOLS defaultCurrency "")
          some (number, symbol, pyUpper currencyCode)

/-- `_parse_price(price_str, default_currency)` (lines 114–153).
`Option.none` is the `(None, None, None)` parse failure; every internal
conversion failure is caught by the source's own `try/except`, so the
function is total. -/
def parsePrice (priceStr : PyVal) (defaultCurrency : String) :
    Option (ℚ × String × String) :=
  match priceStr with
  | PyVal.none => Option.none
  | v => parsePriceCore (normalizePrice (pyStr v)) defaultCurrency

/-! ## `get_inflation_from_worldbank` -/

/-- One element of the World Bank indicator payload `data[1]`: a
possibly-null `value` and a `date` (year). -/
structure WBEntry where
  value : Option ℚ
  date : String
deriving DecidableEq

/-- Outcome of the external call on one country code: a raised
request/parse exception, a well-formed JSON that is not a list of at
least two elements, or the entry list `data[1]`. -/
inductive WBResponse where
  | exc
  | malformed
  | ok (entries : List WBEntry)
deriving DecidableEq

/-- The process-wide state of the resolver: the module-level
`_inflation_cache` (newest entry first) and the log of external calls
actually issued. -/
structure InflState where
  cache : List (String × (Option ℚ × Option String))
  calls : List String
deriving DecidableEq

/-- Dict lookup in the cache. -/
def cacheLookup (cache : List (String × (Option ℚ × Option String))) (k : String) :
    Option (Option ℚ × Option String) :=
  match cache.find? (fun p => p.1 == k) with
  | some p => some p.2
  | Option.none => Option.none

/-- `get_inflation_from_worldbank(country_code)` (lines 55–104), with the
external HTTP call injected as `fetch` and the cache/call-log threaded as
state.  Returns `(inflation_rate, year)`, each `Option.none` when
unavailable.  A falsy (empty) code short-circuits; every completed lookup
— successful or failed — caches its result under the stripped,
lower-cased code. -/
def getInflationFromWorldbank (fetch : String → WBResponse) (countryCode : String)
    (st : InflState) : (Option ℚ × Option String) × InflState :=
  if countryCode = "" then ((Option.none, Option.none), st)
  else
    let code := pyLower (pyStrip countryCode)
    match cacheLookup st.cache code with
    | some v => (v, st)
    | Option.none =>
        let calls1 := st.calls ++ [code]
        match fetch code with
        | WBResponse.exc =>
            ((Option.none, Option.none),
             ⟨(code, (Option.none, Option.none)) :: st.cache, calls1⟩)
        | WBResponse.malformed =>
            ((Option.none, Option.none),
             ⟨(code, (Option.none, Option.none)) :: st.cache, calls1⟩)
        | WBResponse.ok entries =>
            match entries.find? (fun e => e.value.isSome) with
            | some e =>
                ((e.value, some e.date),
                 ⟨(code, (e.value, some e.date)) :: st.cache, calls1⟩)
            | Option.none =>
                ((Option.none, Option.none),
                 ⟨(code, (Option.none, Option.none)) :: st.cache, calls1⟩)

/-! ## `_project_price_over_months` -/

/-- Rounding to two decimal places (`round(x, 2)`; the banker's tie rule
of Python on binary floats is modelled as round-to-nearest, ties away
handled by Mathlib's `round`; no tie is exercised). -/
noncomputable def round2 (x : ℝ) : ℝ := ((round (100 * x) : ℤ) : ℝ) / 100

/-- `monthly_rate = (1 + annual_inflation_pct / 100.0) ** (1 / 12.0) - 1`
(line 172), with `**` the real power `Real.rpow`.  For a base below zero
(`annualInflationPct < -100`) Python's `**` returns a complex number and
this real-valued term is not the program's value: `projectPriceOverMonths`
only relies on this definition for `annualInflationPct ≥ -100` (base
`≥ 0`, where `rpow` agrees with the float computation) and models the
complex case as the `TypeError` the program raises. -/
noncomputable def monthlyRate (annualInflationPct : ℝ) : ℝ :=
  (1 + annualInflationPct / 100) ^ ((1 : ℝ) / 12) - 1

/-- `_project_price_over_months(start_price, annual_inflation_pct, months)`
(lines 156–174): `Option.none` when the inflation rate is `None`, else the
rounded compounded series over `range(months + 1)` (empty when
`months + 1 ≤ 0`, as Python `range`).  When `annualInflationPct < -100`
the base `1 + pct/100` is negative, `** (1/12.0)` yields a complex
number, and the first `round(..., 2)` of the comprehension raises
`TypeError` (line 173) — so the call raises exactly when the rate is
below `-100` and the range is non-empty (`months ≥ 0`); with an empty
range the comprehension returns `[]` without ever calling `round`. -/
noncomputable def projectPriceOverMonths (startPrice : ℝ) (annualInflationPct : Option ℝ)
    (months : ℤ) : Except PyExc (Option (List ℝ)) :=
  match annualInflationPct with
  | Option.none => Except.ok Option.none
  | some pct =>
      if 0 ≤ months ∧ pct < -100 then Except.error PyExc.typeError
      else
        Except.ok (some ((List.range (months + 1).toNat).map
          (fun m => round2 (startPrice * (1 + monthlyRate pct) ^ m))))

/-! ## `forecast_price` -/

/-- A JSON-sourced rational inflation value as the real number the
projector's arithmetic uses. -/
def ratOpt (o : Option ℚ) : Option ℝ :=
  match o with
  | Option.none => Option.none
  | some q => some ((q : ℚ) : ℝ)

/-- `forecast_price(current_price, inflation_rate, months, default_currency)`
(lines 177–205).  The int coercion of `months` is guarded (`except:
months = 0`); neither the projector call (whose `TypeError` for a rate
below `-100` propagates) nor the final `prices[-1]` is: on an empty
series the latter raises `IndexError`, modelled as `Except.error`. -/
noncomputable def forecastPrice (currentPrice : PyVal) (inflationRate : Option ℚ)
    (months : PyVal) (defaultCurrency : String) :
    Except PyExc (Option (ℝ × List ℝ × String)) :=
  match parsePrice currentPrice defaultCurrency with
  | Option.none => Except.ok Option.none
  | some (number, symbol, code) =>
      let m : ℤ := (pyInt months).getD 0
      match projectPriceOverMonths (number : ℝ) (ratOpt inflationRate) m with
      | Except.error e => Except.error e
      | Except.ok Option.none => Except.ok Option.none
      | Except.ok (some prices) =>
          match prices.getLast? with
          | Option.none => Except.error PyExc.indexError
          | some finalPrice =>
              Except.ok (some (finalPrice, prices,
                if symbol ≠ "" then symbol else dictGet CURRENCY_SYMBOLS code ""))

/-! ## The forecasting loop of `main` (lines 225–266) -/

/-- One input product record: the values stored under the five keys, with
`Option.none` for an absent key (a key stored with value `None` behaves
like an absent one at every `item.get(...) or default` site, and the
engine's `Country`/`Currency` reads assume, per the external interface,
string values). -/
structure ProductRecord where
  product : Option PyVal
  currentPrice : Option PyVal
  forecastMonths : Option PyVal
  country : Option String
  currency : Option String

/-- The `"Forecasted Price"` cell: a sentinel string, or the formatted
price `f"{symbol}{final_price}"` / `f"{final_price} {currency}"` kept as
its components (the decimal rendering of the float is not modelled). -/
inductive ForecastDisplay where
  | noInflationData
  | invalidPriceFormat
  | withSymbol (symbol : String) (finalPrice : ℝ)
  | withCurrency (finalPrice : ℝ) (currency : String)

/-- One element of the `forecasts` list `main` builds. -/
structure ForecastRow where
  product : PyVal
  currentPrice : PyVal
  forecastMonths : PyVal
  country : String
  currency : String
  inflationRate : Option ℚ
  inflationYear : Option String
  forecastedPrice : ForecastDisplay
  priceSeries : Option (List ℝ)

/-- One iteration of the loop of `main` (lines 228–266) on one item.
`int(item.get("Forecast Months", 0))` on line 247 is not guarded by any
`try/except`: its `ValueError` escapes as `Except.error`, as does any
exception out of `forecast_price`. -/
noncomputable def forecastStep (fetch : String → WBResponse) (item : ProductRecord)
    (st : InflState) : Except PyExc (ForecastRow × InflState) :=
  let countryCode := pyStrip (item.country.getD "")
  let currency0 := pyUpper (item.currency.getD "")
  let currency := if currency0 = "" then "USD" else currency0
  let resolved := getInflationFromWorldbank fetch countryCode st
  let st1 := resolved.2
  match resolved.1.1 with
  | Option.none =>
      Except.ok (⟨item.product.getD (PyVal.str ""),
        item.currentPrice.getD (PyVal.str "N/A"),
        item.forecastMonths.getD (PyVal.str "0"),
        countryCode, currency, Option.none, Option.none,
        ForecastDisplay.noInflationData, Option.none⟩, st1)
  | some infl =>
      match pyInt (item.forecastMonths.getD (PyVal.int 0)) with
      | Option.none => Except.error PyExc.valueError
      | some monthsInt =>
          match forecastPrice (item.currentPrice.getD (PyVal.str "0")) (some infl)
              (PyVal.int monthsInt) currency with
          | Except.error e => Except.error e
          | Except.ok Option.none =>
              Except.ok (⟨item.product.getD (PyVal.str ""),
                item.currentPrice.getD (PyVal.str "N/A"),
                item.forecastMonths.getD (PyVal.str "0"),
                countryCode, currency, some infl, resolved.1.2,
                ForecastDisplay.invalidPriceFormat, Option.none⟩, st1)
          | Except.ok (some (finalPrice, prices, symbol)) =>
              Except.ok (⟨item.product.getD (PyVal.str ""),
                item.currentPrice.getD (PyVal.str "N/A"),
                item.forecastMonths.getD (PyVal.str "0"),
                countryCode, currency, some infl, resolved.1.2,
                (if symbol ≠ "" then ForecastDisplay.withSymbol symbol finalPrice
                 else ForecastDisplay.withCurrency finalPrice currency),
                some prices⟩, st1)

/-- The forecasting loop of `main` over the whole product list: one row
per item in input order, stopping with the exception if an iteration
raises. -/
noncomputable def forecastBatch (fetch : String → WBResponse) :
    List ProductRecord → InflState → Except PyExc (List ForecastRow × InflState)
  | [], st => Except.ok ([], st)
  | item :: rest, st =>
      match forecastStep fetch item st with
      | Except.error e => Except.error e
      | Except.ok (row, st1) =>
          match forecastBatch fetch rest st1 with
          | Except.error e => Except.error e
          | Except.ok (rows, st2) => Except.ok (row :: rows, st2)

/-- Every inflation value stored in a cache is at least `-100` percent
(total value destruction): below that the projector raises `TypeError`. -/
def cacheBounded (cache : List (String × (Option ℚ × Option String))) : Prop :=
  ∀ p ∈ cache, ∀ v : ℚ, p.2.1 = some v → -100 ≤ v

/-- Every inflation value the external source can return is at least
`-100` percent. -/
def fetchBounded (fetch : String → WBResponse) : Prop :=
  ∀ c entries, fetch c = WBResponse.ok entries →
    ∀ e ∈ entries, ∀ v : ℚ, e.value = some v → -100 ≤ v

/-! ## Helper lemmas about the projector -/

lemma one_add_monthlyRate (p : ℝ) :
    1 + monthlyRate p = (1 + p / 100) ^ ((1 : ℝ) / 12) := by
  unfold monthlyRate; ring

lemma round2_mono {x y : ℝ} (h : x ≤ y) : round2 x ≤ round2 y := by
  unfold round2
  have h1 : round (100 * x) ≤ round (100 * y) := by
    rw [round_eq, round_eq]
    exact Int.floor_le_floor (by linarith)
  have h2 : ((round (100 * x) : ℤ) : ℝ) ≤ ((round (100 * y) : ℤ) : ℝ) :=
    Int.cast_le.mpr h1
  linarith

lemma projectPrice_eq (start p : ℝ) (n : ℕ) (hp : ¬ p < -100) :
    projectPriceOverMonths start (some p) (n : ℤ) =
      Except.ok (some ((List.range (n + 1)).map
        (fun m => round2 (start * (1 + monthlyRate p) ^ m)))) := by
  simp only [projectPriceOverMonths]
  rw [if_neg (fun h => hp h.2)]
  have h : (((n : ℤ) + 1).toNat) = n + 1 := by omega
  rw [h]

lemma projectPrice_get (start p : ℝ) (n m : ℕ) (hm : m ≤ n) :
    ((List.range (n + 1)).map
        (fun k => round2 (start * (1 + monthlyRate p) ^ k))).get? m =
      some (round2 (start * (1 + monthlyRate p) ^ m)) := by
  rw [List.get?_eq_getElem?, List.getElem?_map, List.getElem?_range (by omega : m < n + 1)]
  rfl

/-! ## C4: the projected series -/

/-- C4 counterexample: at `annualPercent = -150` (with `months = 0`) the
program raises `TypeError` — `(1 - 150/100) ** (1/12.0)` is a complex
number and `round(..., 2)` at line 173 rejects it — instead of returning
a series of length `months + 1`. -/
theorem projectPrice_negative_base_raises :
    projectPriceOverMonths 100 (some (-150)) 0 = Except.error PyExc.typeError ∧
    ∀ l : List ℝ, projectPriceOverMonths 100 (some (-150)) 0 ≠
      Except.ok (some l) := by
  have h : projectPriceOverMonths (100 : ℝ) (some (-150)) 0 =
      Except.error PyExc.typeError := by
    simp only [projectPriceOverMonths]
    rw [if_pos ⟨by omega, by norm_num⟩]
  refine ⟨h, fun l hl => ?_⟩
  rw [h] at hl
  exact Except.noConfusion hl

/-- C4 as amended: `project` returns `None` exactly when `annualPercent`
is `None`; for `annualPercent < -100` it raises `TypeError` (`round` of
the complex value produced by the fractional power of a negative base);
otherwise it returns a series of length `months + 1` whose entry for
month `m` (`0 ≤ m ≤ months`) is
`round(startAmount * (1 + monthlyRate) ^ m, 2)`, where
`monthlyRate = (1 + annualPercent / 100) ^ (1 / 12) - 1`. -/
theorem projectPrice_series_spec (start p : ℝ) (n m : ℕ) (hm : m ≤ n) :
    projectPriceOverMonths start Option.none (n : ℤ) = Except.ok Option.none ∧
    (p < -100 →
      projectPriceOverMonths start (some p) (n : ℤ) =
        Except.error PyExc.typeError) ∧
    (-100 ≤ p →
      ∃ l, projectPriceOverMonths start (some p) (n : ℤ) = Except.ok (some l) ∧
        l.length = n + 1 ∧
        l.get? m = some (round2 (start *
          (1 + ((1 + p / 100) ^ ((1 : ℝ) / 12) - 1)) ^ m))) := by
  refine ⟨rfl, ?_, ?_⟩
  · intro hneg
    simp only [projectPriceOverMonths]
    rw [if_pos ⟨by omega, hneg⟩]
  · intro hpos
    refine ⟨_, projectPrice_eq start p n (not_lt.mpr hpos), ?_, ?_⟩
    · rw [List.length_map, List.length_range]
    · rw [projectPrice_get start p n m hm]
      rfl

/-- Witness for C4 (amended) at `start = 1`, `p = 0`, `months = 1`,
`m = 0`. -/
theorem projectPrice_series_spec_witness :
    projectPriceOverMonths 1 Option.none ((1 : ℕ) : ℤ) = Except.ok Option.none ∧
    ((0 : ℝ) < -100 →
      projectPriceOverMonths 1 (some 0) ((1 : ℕ) : ℤ) =
        Except.error PyExc.typeError) ∧
    ((-100 : ℝ) ≤ 0 →
      ∃ l, projectPriceOverMonths 1 (some 0) ((1 : ℕ) : ℤ) =
          Except.ok (some l) ∧
        l.length = 1 + 1 ∧
        l.get? 0 = some (round2 (1 *
          (1 + ((1 + (0 : ℝ) / 100) ^ ((1 : ℝ) / 12) - 1)) ^ (0 : ℕ)))) :=
  projectPrice_series_spec 1 0 1 0 (by decide)

/-! ## C3: monotonicity in the sign of the rate -/

/-- C3 counterexample: with a positive rate (1 percent) and positive start
amount `0.01` the 2-decimal rounding collapses consecutive entries, so the
returned series `[0.01, 0.01]` is not strictly increasing. -/
theorem projectPrice_rounding_breaks_strict_mono :
    projectPriceOverMonths (1 / 100) (some 1) 1 =
      Except.ok (some [1 / 100, 1 / 100]) ∧
    ¬ List.Chain' (fun a b : ℝ => a < b) [1 / 100, 1 / 100] := by
  have hq1 : 1 < (1 + (1 : ℝ) / 100) ^ ((1 : ℝ) / 12) := by
    rw [Real.one_lt_rpow_iff_of_pos (by norm_num)]
    exact Or.inl ⟨by norm_num, by norm_num⟩
  have hq2 : (1 + (1 : ℝ) / 100) ^ ((1 : ℝ) / 12) ≤ 1 + 1 / 100 := by
    calc (1 + (1 : ℝ) / 100) ^ ((1 : ℝ) / 12)
        ≤ (1 + (1 : ℝ) / 100) ^ (1 : ℝ) :=
          Real.rpow_le_rpow_of_exponent_le (by norm_num) (by norm_num)
      _ = 1 + 1 / 100 := Real.rpow_one _
  have hq0 : (1 : ℝ) + monthlyRate 1 = (1 + (1 : ℝ) / 100) ^ ((1 : ℝ) / 12) := by
    rw [one_add_monthlyRate]
  constructor
  · have h0 : round2 ((1 : ℝ) / 100 * (1 + monthlyRate 1) ^ (0 : ℕ)) = 1 / 100 := by
      rw [pow_zero, mul_one]
      unfold round2
      norm_num
    have h1 : round2 ((1 : ℝ) / 100 * (1 + monthlyRate 1) ^ (1 : ℕ)) = 1 / 100 := by
      rw [pow_one, hq0]
      unfold round2
      have hr : round ((100 : ℝ) * (1 / 100 *
          (1 + (1 : ℝ) / 100) ^ ((1 : ℝ) / 12))) = 1 := by
        have he : (100 : ℝ) * (1 / 100 * (1 + (1 : ℝ) / 100) ^ ((1 : ℝ) / 12)) =
            (1 + (1 : ℝ) / 100) ^ ((1 : ℝ) / 12) := by ring
        rw [he, round_eq, Int.floor_eq_iff]
        constructor
        · push_cast; linarith
        · push_cast; linarith
      rw [hr]
      norm_num
    show projectPriceOverMonths (1 / 100) (some 1) ((1 : ℕ) : ℤ) =
      Except.ok (some [1 / 100, 1 / 100])
    rw [projectPrice_eq (1 / 100) 1 1 (by norm_num)]
    have hrange : List.range (1 + 1) = [0, 1] := rfl
    rw [hrange, List.map_cons, List.map_cons, List.map_nil, h0, h1]
  · intro hchain
    have := (List.chain'_cons.mp hchain).1
    exact absurd this (lt_irrefl _)

/-- C3 as amended: for a positive start amount and a rate above the total
destruction level `-100`, the underlying (unrounded) series is strictly
increasing when the rate is positive, strictly decreasing when negative,
and constant when zero; the rounded entries actually returned are
correspondingly weakly monotone (strictness can be lost to rounding). -/
theorem projectPrice_sign_monotonicity (start p : ℝ) (n i j : ℕ)
    (hs : 0 < start) (hp : -100 < p) (hij : i < j) (hj : j ≤ n) :
    ∃ l, projectPriceOverMonths start (some p) (n : ℤ) = Except.ok (some l) ∧
      l.get? i = some (round2 (start * (1 + monthlyRate p) ^ i)) ∧
      l.get? j = some (round2 (start * (1 + monthlyRate p) ^ j)) ∧
      (0 < p → start * (1 + monthlyRate p) ^ i < start * (1 + monthlyRate p) ^ j ∧
        round2 (start * (1 + monthlyRate p) ^ i) ≤
          round2 (start * (1 + monthlyRate p) ^ j)) ∧
      (p < 0 → start * (1 + monthlyRate p) ^ j < start * (1 + monthlyRate p) ^ i ∧
        round2 (start * (1 + monthlyRate p) ^ j) ≤
          round2 (start * (1 + monthlyRate p) ^ i)) ∧
      (p = 0 → round2 (start * (1 + monthlyRate p) ^ i) = round2 start ∧
        round2 (start * (1 + monthlyRate p) ^ j) = round2 start) := by
  have hbase : (0 : ℝ) < 1 + p / 100 := by linarith
  have hq : 1 + monthlyRate p = (1 + p / 100) ^ ((1 : ℝ) / 12) := one_add_monthlyRate p
  refine ⟨_, projectPrice_eq start p n (lt_asymm hp),
    projectPrice_get start p n i (by omega),
    projectPrice_get start p n j hj, ?_, ?_, ?_⟩
  · intro hpos
    have h1 : 1 < 1 + monthlyRate p := by
      rw [hq, Real.one_lt_rpow_iff_of_pos hbase]
      exact Or.inl ⟨by linarith, by norm_num⟩
    have hpow : (1 + monthlyRate p) ^ i < (1 + monthlyRate p) ^ j :=
      pow_lt_pow_right₀ h1 hij
    exact ⟨mul_lt_mul_of_pos_left hpow hs, round2_mono (le_of_lt
      (mul_lt_mul_of_pos_left hpow hs))⟩
  · intro hneg
    have h0 : 0 < 1 + monthlyRate p := by
      rw [hq]; exact Real.rpow_pos_of_pos hbase _
    have h1 : 1 + monthlyRate p < 1 := by
      rw [hq]
      exact Real.rpow_lt_one (le_of_lt hbase) (by linarith) (by norm_num)
    have hpow : (1 + monthlyRate p) ^ j < (1 + monthlyRate p) ^ i :=
      pow_lt_pow_right_of_lt_one₀ h0 h1 hij
    exact ⟨mul_lt_mul_of_pos_left hpow hs, round2_mono (le_of_lt
      (mul_lt_mul_of_pos_left hpow hs))⟩
  · intro hzero
    subst hzero
    have h1 : 1 + monthlyRate 0 = 1 := by
      rw [one_add_monthlyRate]
      norm_num
    rw [h1, one_pow, one_pow, mul_one]
    exact ⟨rfl, rfl⟩

/-- Witness for C3 (amended) at `start = 1`, `p = 1`, `n = 2`, `i = 0`,
`j = 1`. -/
theorem projectPrice_sign_monotonicity_witness :
    ∃ l, projectPriceOverMonths 1 (some 1) ((2 : ℕ) : ℤ) = Except.ok (some l) ∧
      l.get? 0 = some (round2 (1 * (1 + monthlyRate 1) ^ (0 : ℕ))) ∧
      l.get? 1 = some (round2 (1 * (1 + monthlyRate 1) ^ (1 : ℕ))) ∧
      ((0 : ℝ) < 1 → 1 * (1 + monthlyRate 1) ^ (0 : ℕ) <
          1 * (1 + monthlyRate 1) ^ (1 : ℕ) ∧
        round2 (1 * (1 + monthlyRate 1) ^ (0 : ℕ)) ≤
          round2 (1 * (1 + monthlyRate 1) ^ (1 : ℕ))) ∧
      ((1 : ℝ) < 0 → 1 * (1 + monthlyRate 1) ^ (1 : ℕ) <
          1 * (1 + monthlyRate 1) ^ (0 : ℕ) ∧
        round2 (1 * (1 + monthlyRate 1) ^ (1 : ℕ)) ≤
          round2 (1 * (1 + monthlyRate 1) ^ (0 : ℕ))) ∧
      ((1 : ℝ) = 0 → round2 (1 * (1 + monthlyRate 1) ^ (0 : ℕ)) = round2 1 ∧
        round2 (1 * (1 + monthlyRate 1) ^ (1 : ℕ)) = round2 1) :=
  projectPrice_sign_monotonicity 1 1 2 0 1 (by norm_num) (by norm_num)
    (by decide) (by decide)

/-! ## C5: failure and fallback of the money parser -/

/-- C5 counterexample: on `"abc,def5"` the primary pattern matches (groups
`("abc", "", ",", "def")`), numeric conversion of the token `","` fails,
and `_parse_price` returns the failure triple without attempting the
fallback — although the fallback strip of the whole string yields `"5"`,
which converts to `5.0`. -/
theorem parsePrice_skips_fallback_after_match :
    parsePrice (PyVal.str "abc,def5") "USD" = Option.none ∧
    pyFloat (fallbackClean (normalizePrice "abc,def5")) = some 5 := by
  exact ⟨rfl, rfl⟩

/-- C5 as amended: `parse` fails exactly when either the primary pattern
does not match and the fallback conversion of the stripped string fails,
or the primary pattern matches and numeric conversion of the matched
token (with commas, then also spaces, removed) fails.  The fallback is
attempted only when the primary pattern does not match. -/
theorem parsePrice_failure_iff (s d : String) :
    parsePrice (PyVal.str s) d = Option.none ↔
      ((priceSearch (normalizePrice s) = Option.none ∧
        pyFloat (fallbackClean (normalizePrice s)) = Option.none) ∨
       (∃ m, priceSearch (normalizePrice s) = some m ∧
        pyFloat (stripCommas m.numTok) = Option.none ∧
        pyFloat (stripSpaces (stripCommas m.numTok)) = Option.none)) := by
  have hcore : parsePrice (PyVal.str s) d = parsePriceCore (normalizePrice s) d := rfl
  rw [hcore]
  unfold parsePriceCore
  cases hsearch : priceSearch (normalizePrice s) with
  | none =>
      cases hfb : pyFloat (fallbackClean (normalizePrice s)) with
      | none => simp [hsearch, hfb]
      | some x => simp [hsearch, hfb]
  | some m =>
      cases h1 : pyFloat (stripCommas m.numTok) with
      | none =>
          cases h2 : pyFloat (stripSpaces (stripCommas m.numTok)) with
          | none => simp [hsearch, h1, h2]
          | some x => simp [hsearch, h1, h2]
      | some x => simp [hsearch, h1]

/-! ## C6: currency-code precedence and numeric value -/

/-- C6: when the primary pattern matches and the matched token (commas
removed) converts, the parse result carries exactly that numeric value,
and its currency code is the precedence choice (leading code, else
trailing code, else the caller-supplied default), upper-cased. -/
theorem parsePrice_code_precedence (s d : String) (m : PriceMatch) (v : ℚ)
    (hm : priceSearch (normalizePrice s) = some m)
    (hv : pyFloat (stripCommas m.numTok) = some v) :
    ∃ sym, parsePrice (PyVal.str s) d =
      some (v, sym, pyUpper (m.code1.getD (m.code2.getD d))) := by
  have hcore : parsePrice (PyVal.str s) d = parsePriceCore (normalizePrice s) d := rfl
  rw [hcore]
  unfold parsePriceCore
  rw [hm]
  simp only [hv]
  exact ⟨_, rfl⟩

/-- Witness for C6 on `"USD 5"` with default `"EUR"`. -/
theorem parsePrice_code_precedence_witness :
    priceSearch (normalizePrice "USD 5") =
      some ⟨some "USD", "", "5", Option.none⟩ ∧
    pyFloat (stripCommas "5") = some 5 ∧
    ∃ sym, parsePrice (PyVal.str "USD 5") "EUR" =
      some (5, sym, pyUpper ((some "USD").getD
        ((Option.none : Option String).getD "EUR"))) :=
  ⟨rfl, rfl, parsePrice_code_precedence "USD 5" "EUR"
    ⟨some "USD", "", "5", Option.none⟩ 5 rfl rfl⟩

/-! ## C10: totality and result shape of the money parser -/

/-- C10: on every input that is a string, a number or `None`, and every
string default currency, `_parse_price` is total (every failing conversion
is caught by its own `try/except`) and returns either the failure triple
or a numeric value with a string symbol and a string currency code. -/
theorem parsePrice_total_shape (v : PyVal) (d : String) :
    parsePrice v d = Option.none ∨
    ∃ q sym code, parsePrice v d = some (q, sym, code) := by
  cases h : parsePrice v d with
  | none => exact Or.inl rfl
  | some t => exact Or.inr ⟨t.1, t.2.1, t.2.2, rfl⟩

/-! ## C7: empty and blank country codes -/

/-- C7 counterexample: the whitespace-only code `" "` is truthy in Python,
so the resolver does not short-circuit: it issues an external call (for
the stripped key, the empty string) and writes a cache entry — the claim
says a blank code performs no external call and writes no cache entry. -/
theorem getInflation_blank_code_calls_out :
    (getInflationFromWorldbank (fun _ => WBResponse.exc) " " ⟨[], []⟩).2.calls =
      [""] ∧
    (getInflationFromWorldbank (fun _ => WBResponse.exc) " " ⟨[], []⟩).2.cache =
      [("", (Option.none, Option.none))] := by
  exact ⟨rfl, rfl⟩

/-- C7 as amended: only the empty (falsy) country code returns
`(None, None)` immediately with no external call and no cache write; a
whitespace-only code is processed like any other, keyed by its stripped
(empty) form. -/
theorem getInflation_empty_code_short_circuits (fetch : String → WBResponse)
    (st : InflState) :
    getInflationFromWorldbank fetch "" st = ((Option.none, Option.none), st) := rfl

/-! ## C8: caching makes the resolver idempotent -/

lemma cacheLookup_cons_self (k : String) (v : Option ℚ × Option String)
    (c : List (String × (Option ℚ × Option String))) :
    cacheLookup ((k, v) :: c) k = some v := by
  unfold cacheLookup
  rw [List.find?_cons_of_pos _ (by simp)]

/-- After a completed lookup for a truthy code, the returned value is in
the cache under the stripped, lower-cased code, and at most one external
call was added. -/
lemma getInflation_caches (fetch : String → WBResponse) (s : String)
    (st : InflState) (hs0 : ¬ s = "") :
    cacheLookup (getInflationFromWorldbank fetch s st).2.cache
        (pyLower (pyStrip s)) =
      some (getInflationFromWorldbank fetch s st).1 ∧
    (getInflationFromWorldbank fetch s st).2.calls.length ≤
      st.calls.length + 1 := by
  simp only [getInflationFromWorldbank, if_neg hs0]
  cases hlk : cacheLookup st.cache (pyLower (pyStrip s)) with
  | some v =>
      simp only [hlk]
      exact ⟨trivial, by omega⟩
  | none =>
      simp only [hlk]
      cases hf : fetch (pyLower (pyStrip s)) with
      | exc =>
          simp only [hf]
          exact ⟨cacheLookup_cons_self _ _ _, by simp⟩
      | malformed =>
          simp only [hf]
          exact ⟨cacheLookup_cons_self _ _ _, by simp⟩
      | ok entries =>
          simp only [hf]
          cases hfind : entries.find? (fun e => e.value.isSome) with
          | some e =>
              simp only [hfind]
              exact ⟨cacheLookup_cons_self _ _ _, by simp⟩
          | none =>
              simp only [hfind]
              exact ⟨cacheLookup_cons_self _ _ _, by simp⟩

/-- C8: for a code whose trimmed form is non-empty, resolving twice in
succession issues at most one external call in total and returns the same
result both times (the second call is a pure cache hit that leaves the
state unchanged). -/
theorem getInflation_idempotent (fetch : String → WBResponse) (s : String)
    (st0 : InflState) (hs : pyStrip s ≠ "") :
    (getInflationFromWorldbank fetch s
        (getInflationFromWorldbank fetch s st0).2).1 =
      (getInflationFromWorldbank fetch s st0).1 ∧
    (getInflationFromWorldbank fetch s
        (getInflationFromWorldbank fetch s st0).2).2 =
      (getInflationFromWorldbank fetch s st0).2 ∧
    (getInflationFromWorldbank fetch s st0).2.calls.length ≤
      st0.calls.length + 1 := by
  have hs0 : ¬ s = "" := by
    intro h
    apply hs
    rw [h]
    rfl
  obtain ⟨hcache, hcalls⟩ := getInflation_caches fetch s st0 hs0
  set r := getInflationFromWorldbank fetch s st0 with hr
  have hsecond : getInflationFromWorldbank fetch s r.2 = (r.1, r.2) := by
    simp only [getInflationFromWorldbank, if_neg hs0, hcache]
  exact ⟨by rw [hsecond], by rw [hsecond], hcalls⟩

/-- Witness for C8 with code `"US"`, a failing external source and an
empty initial cache. -/
theorem getInflation_idempotent_witness :
    (getInflationFromWorldbank (fun _ => WBResponse.exc) "US"
        (getInflationFromWorldbank (fun _ => WBResponse.exc) "US" ⟨[], []⟩).2).1 =
      (getInflationFromWorldbank (fun _ => WBResponse.exc) "US" ⟨[], []⟩).1 ∧
    (getInflationFromWorldbank (fun _ => WBResponse.exc) "US"
        (getInflationFromWorldbank (fun _ => WBResponse.exc) "US" ⟨[], []⟩).2).2 =
      (getInflationFromWorldbank (fun _ => WBResponse.exc) "US" ⟨[], []⟩).2 ∧
    (getInflationFromWorldbank (fun _ => WBResponse.exc) "US" ⟨[], []⟩).2.calls.length ≤
      (⟨[], []⟩ : InflState).calls.length + 1 :=
  getInflation_idempotent (fun _ => WBResponse.exc) "US" ⟨[], []⟩ (by decide)

/-! ## C1: the unguarded month coercion in `main` -/

/-- C1 evaluated at the failing input: a product whose country resolves to
inflation data but whose `"Forecast Months"` value `"twelve"` fails int
coercion.  `int(item.get("Forecast Months", 0))` on line 247 of `main` is
outside any `try/except`, so the `ValueError` escapes the per-item
boundary before `forecast_price`'s guarded default-to-0 coercion (lines
195–198) can run: the item yields no ForecastResult at all. -/
theorem main_unguarded_months_coercion_raises :
    forecastStep (fun _ => WBResponse.ok [⟨some 5, "2024"⟩])
      ⟨some (PyVal.str "Widget"), some (PyVal.str "100"),
       some (PyVal.str "twelve"), some "us", some "USD"⟩ ⟨[], []⟩ =
      Except.error PyExc.valueError := by
  rfl

/-! ## C9: negative month counts are not clamped -/

/-- C9 evaluated at the failing input: no clamping exists; with a parsed
price, known inflation and month count `-1`, the projector receives the
negative count, `range(months + 1)` is empty, and `prices[-1]` raises
`IndexError` (the claim says months is clamped to non-negative by the
caller so the forecast completes). -/
theorem forecastPrice_negative_months_raises :
    forecastPrice (PyVal.str "100") (some 5) (PyVal.int (-1)) "USD" =
      Except.error PyExc.indexError := by
  rfl

/-! ## C2: batch length and order -/

/-- C2 counterexample: a batch of one product whose country resolves but
whose `"Forecast Months"` value `"soon"` fails int coercion produces no
output row at all — the loop aborts with `ValueError` — so the output does
not have one ForecastResult per input product. -/
theorem forecastBatch_drops_batch_on_bad_months :
    forecastBatch (fun _ => WBResponse.ok [⟨some 2, "2023"⟩])
      [⟨Option.none, some (PyVal.str "10"), some (PyVal.str "soon"),
        some "fr", Option.none⟩] ⟨[], []⟩ = Except.error PyExc.valueError ∧
    ∀ rows : List ForecastRow, ∀ stq : InflState,
      forecastBatch (fun _ => WBResponse.ok [⟨some 2, "2023"⟩])
        [⟨Option.none, some (PyVal.str "10"), some (PyVal.str "soon"),
          some "fr", Option.none⟩] ⟨[], []⟩ ≠ Except.ok (rows, stq) := by
  refine ⟨rfl, fun rows stq hok => ?_⟩
  rw [show forecastBatch (fun _ => WBResponse.ok [⟨some 2, "2023"⟩])
      [⟨Option.none, some (PyVal.str "10"), some (PyVal.str "soon"),
        some "fr", Option.none⟩] ⟨[], []⟩ = Except.error PyExc.valueError from rfl]
      at hok
  exact Except.noConfusion hok

lemma cacheBounded_cons {cache : List (String × (Option ℚ × Option String))}
    (hc : cacheBounded cache) (k : String) (val : Option ℚ × Option String)
    (hval : ∀ v : ℚ, val.1 = some v → -100 ≤ v) :
    cacheBounded ((k, val) :: cache) := by
  intro p hp v hv
  rcases List.mem_cons.mp hp with h | h
  · subst h
    exact hval v hv
  · exact hc p h v hv

/-- Resolving any code from a `-100`-bounded source with a bounded cache
yields a bounded inflation value and keeps the cache bounded. -/
lemma getInflation_bounded (fetch : String → WBResponse) (s : String)
    (st : InflState) (hf : fetchBounded fetch) (hc : cacheBounded st.cache) :
    (∀ v : ℚ, (getInflationFromWorldbank fetch s st).1.1 = some v → -100 ≤ v) ∧
    cacheBounded (getInflationFromWorldbank fetch s st).2.cache := by
  by_cases hs : s = ""
  · subst hs
    have he : getInflationFromWorldbank fetch "" st =
        ((Option.none, Option.none), st) := rfl
    rw [he]
    exact ⟨fun v hv => Option.noConfusion hv, hc⟩
  · simp only [getInflationFromWorldbank, if_neg hs]
    cases hlk : cacheLookup st.cache (pyLower (pyStrip s)) with
    | some val =>
        simp only [hlk]
        have hmem : ∃ pr ∈ st.cache, pr.2 = val := by
          unfold cacheLookup at hlk
          cases hfind : st.cache.find? (fun p => p.1 == pyLower (pyStrip s)) with
          | none =>
              rw [hfind] at hlk
              exact Option.noConfusion hlk
          | some pr =>
              rw [hfind] at hlk
              exact ⟨pr, List.mem_of_find?_eq_some hfind, by injection hlk⟩
        obtain ⟨pr, hpr, hval⟩ := hmem
        refine ⟨fun v hv => hc pr hpr v ?_, hc⟩
        rw [hval]
        exact hv
    | none =>
        simp only [hlk]
        cases hfet : fetch (pyLower (pyStrip s)) with
        | exc =>
            simp only [hfet]
            exact ⟨fun v hv => Option.noConfusion hv,
              cacheBounded_cons hc _ _ (fun v hv => Option.noConfusion hv)⟩
        | malformed =>
            simp only [hfet]
            exact ⟨fun v hv => Option.noConfusion hv,
              cacheBounded_cons hc _ _ (fun v hv => Option.noConfusion hv)⟩
        | ok entries =>
            simp only [hfet]
            cases hfind : entries.find? (fun e => e.value.isSome) with
            | some e =>
                simp only [hfind]
                have hbound : ∀ v : ℚ, e.value = some v → -100 ≤ v :=
                  hf _ _ hfet e (List.mem_of_find?_eq_some hfind)
                exact ⟨hbound, cacheBounded_cons hc _ _ hbound⟩
            | none =>
                simp only [hfind]
                exact ⟨fun v hv => Option.noConfusion hv,
                  cacheBounded_cons hc _ _ (fun v hv => Option.noConfusion hv)⟩

lemma projectPrice_ok_nonempty (start p : ℝ) (k : ℤ) (hk : 0 ≤ k)
    (hp : ¬ p < -100) :
    ∃ l, projectPriceOverMonths start (some p) k = Except.ok (some l) ∧
      l ≠ [] := by
  have heq : projectPriceOverMonths start (some p) k =
      Except.ok (some ((List.range (k + 1).toNat).map
        (fun m => round2 (start * (1 + monthlyRate p) ^ m)))) := by
    simp only [projectPriceOverMonths]
    rw [if_neg (fun h => hp h.2)]
  refine ⟨_, heq, ?_⟩
  have hlen : (k + 1).toNat = k.toNat + 1 := by omega
  simp [hlen]

lemma forecastPrice_ok_of_nonneg (cp : PyVal) (infl : ℚ) (k : ℤ) (cur : String)
    (hk : 0 ≤ k) (hb : -100 ≤ infl) :
    ∃ r, forecastPrice cp (some infl) (PyVal.int k) cur = Except.ok r := by
  simp only [forecastPrice]
  cases hp : parsePrice cp cur with
  | none => exact ⟨Option.none, rfl⟩
  | some t =>
      obtain ⟨number, symbol, code⟩ := t
      have hm : (pyInt (PyVal.int k)).getD 0 = k := rfl
      rw [hm]
      have hbr : ¬ ((infl : ℚ) : ℝ) < -100 := by
        rw [not_lt]
        exact_mod_cast hb
      obtain ⟨l, hl, hne⟩ :=
        projectPrice_ok_nonempty ((number : ℚ) : ℝ) ((infl : ℚ) : ℝ) k hk hbr
      simp only [ratOpt, hl]
      cases hlast : l.getLast? with
      | none =>
          exact absurd (List.getLast?_isSome.mpr hne) (by simp [hlast])
      | some fp => exact ⟨_, rfl⟩

lemma forecastStep_ok (fetch : String → WBResponse) (item : ProductRecord)
    (st : InflState) (k : ℤ)
    (hf : fetchBounded fetch) (hc : cacheBounded st.cache)
    (hk1 : pyInt (item.forecastMonths.getD (PyVal.int 0)) = some k)
    (hk2 : 0 ≤ k) :
    ∃ row st1, forecastStep fetch item st = Except.ok (row, st1) ∧
      row.product = item.product.getD (PyVal.str "") ∧
      cacheBounded st1.cache := by
  obtain ⟨hval, hcache1⟩ :=
    getInflation_bounded fetch (pyStrip (item.country.getD "")) st hf hc
  simp only [forecastStep]
  cases hinf : (getInflationFromWorldbank fetch
      (pyStrip (item.country.getD "")) st).1.1 with
  | none =>
      simp only [hinf]
      exact ⟨_, _, rfl, rfl, hcache1⟩
  | some infl =>
      simp only [hinf, hk1]
      obtain ⟨r, hr⟩ := forecastPrice_ok_of_nonneg
        (item.currentPrice.getD (PyVal.str "0")) infl k
        (if pyUpper (item.currency.getD "") = "" then "USD"
         else pyUpper (item.currency.getD "")) hk2 (hval infl hinf)
      rw [hr]
      cases r with
      | none => exact ⟨_, _, rfl, rfl, hcache1⟩
      | some t =>
          obtain ⟨fp, prices, symbol⟩ := t
          exact ⟨_, _, rfl, rfl, hcache1⟩

/-- C2 as amended: provided every record's `"Forecast Months"` value
(defaulting to 0 when absent) coerces to a non-negative integer, and
every inflation value the external source or the initial cache can
supply is at least `-100` percent, the forecasting loop of `main`
produces exactly one ForecastResult per input product, in input order
(the unguarded coercion of C1, the missing negative-month clamp of C9,
and the projector's `TypeError` on a rate below `-100` are the only
per-item escapes). -/
theorem forecastBatch_length_order (fetch : String → WBResponse)
    (items : List ProductRecord) (st : InflState)
    (hf : fetchBounded fetch) (hc : cacheBounded st.cache)
    (hmonths : ∀ item ∈ items, ∃ k : ℤ,
      pyInt (item.forecastMonths.getD (PyVal.int 0)) = some k ∧ 0 ≤ k) :
    ∃ rows st1, forecastBatch fetch items st = Except.ok (rows, st1) ∧
      rows.length = items.length ∧
      ∀ i, i < items.length → ∃ row item,
        rows.get? i = some row ∧ items.get? i = some item ∧
        row.product = item.product.getD (PyVal.str "") := by
  induction items generalizing st with
  | nil =>
      exact ⟨[], st, rfl, rfl, fun i hi => absurd hi (by simp)⟩
  | cons item rest ih =>
      obtain ⟨k, hk1, hk2⟩ := hmonths item (by simp)
      obtain ⟨row, st1, hstep, hprod, hc1⟩ :=
        forecastStep_ok fetch item st k hf hc hk1 hk2
      obtain ⟨rows, st2, hbatch, hlen, hget⟩ :=
        ih st1 hc1 (fun x hx => hmonths x (List.mem_cons_of_mem _ hx))
      refine ⟨row :: rows, st2, ?_, by simp [hlen], ?_⟩
      · simp only [forecastBatch, hstep, hbatch]
      · intro i hi
        cases i with
        | zero => exact ⟨row, item, rfl, rfl, hprod⟩
        | succ i2 =>
            obtain ⟨r2, it2, h1, h2, h3⟩ := hget i2 (by simpa using hi)
            exact ⟨r2, it2, by simpa using h1, by simpa using h2, h3⟩

/-- Witness for C2 (amended) on a one-product batch with month count 3,
a failing external source and an empty initial cache. -/
theorem forecastBatch_length_order_witness :
    ∃ rows st1,
      forecastBatch (fun _ => WBResponse.exc)
        [⟨some (PyVal.str "A"), some (PyVal.str "100"), some (PyVal.int 3),
          some "us", some "USD"⟩] ⟨[], []⟩ = Except.ok (rows, st1) ∧
      rows.length = [(⟨some (PyVal.str "A"), some (PyVal.str "100"),
          some (PyVal.int 3), some "us", some "USD"⟩ : ProductRecord)].length ∧
      ∀ i, i < [(⟨some (PyVal.str "A"), some (PyVal.str "100"),
          some (PyVal.int 3), some "us", some "USD"⟩ : ProductRecord)].length →
        ∃ row item,
          rows.get? i = some row ∧
          [(⟨some (PyVal.str "A"), some (PyVal.str "100"), some (PyVal.int 3),
            some "us", some "USD"⟩ : ProductRecord)].get? i = some item ∧
          row.product = item.product.getD (PyVal.str "") :=
  forecastBatch_length_order (fun _ => WBResponse.exc)
    [⟨some (PyVal.str "A"), some (PyVal.str "100"), some (PyVal.int 3),
      some "us", some "USD"⟩] ⟨[], []⟩
    (by
      intro c entries h
      exact WBResponse.noConfusion h)
    (by
      intro p hp
      exact absurd hp (List.not_mem_nil p))
    (by
      intro item h
      rw [List.mem_singleton] at h
      subst h
      exact ⟨3, rfl, by decide⟩)

end PriceForecast
